import Mathlib

/-!
Verification of the browser remote-debugging channel and action executor.

This file shallowly embeds the parts of the repository that the checked
properties talk about:

- the asynchronous command/event client in A1/cdp_client.py
  (class CDPClient: send, close, _handle_message, on, click, click_pixel);
- the action executor in src/browser_executor.py
  (class BrowserExecutor: execute_action, capture_state, wait_for_actions,
  run_task).

State is passed explicitly; the behaviour of the outside world (the wire,
the page, the filesystem, the wall clock) is an explicit oracle argument,
so every definition is an executable function of its inputs.
-/

namespace CDP

/-- Outcome of one registered event callback when invoked: callbacks in the
source are arbitrary Python callables that either return or raise, so a
callback is embedded as its identifier together with a function from the
serialized params to an Except value, where an error value models a raised
exception. -/
structure Callback where
  cid : Nat
  run : String → Except String Unit

/-- One network-log entry, mirroring the dictionaries appended to
CDPClient.network_events in _handle_message. -/
inductive NetEvent where
  | request (url : String)
  | response (status : Int) (url : String)
deriving DecidableEq, Repr

/-- Mutable state of a CDPClient instance: the fields set in
CDPClient.__init__ that the checked properties mention.  Futures are not
modelled directly; the pending map is embedded as the list of pending
correlation ids, and resolutions of those futures are emitted as explicit
Resolution events by the functions that resolve them. -/
structure ClientState where
  msg_id : Nat
  pending : List Nat
  console_logs : List String
  network_events : List NetEvent
  connected : Bool
  listenerActive : Bool
deriving Repr

/-- Fresh client as built by CDPClient.__init__ and a successful connect
(connected set, listener task running). -/
def connectedInit : ClientState :=
  { msg_id := 0, pending := [], console_logs := [], network_events := []
    connected := true, listenerActive := true }

/-- Resolution event for one pending request: the ways a pending future can
be completed.  The source completes futures with set_result, with
set_exception on a protocol error, or would complete them with a
connection-closed error on teardown. -/
inductive Resolution where
  | result (id : Nat) (payload : String)
  | protocolError (id : Nat) (message : String)
  | connectionClosed (id : Nat)
deriving DecidableEq, Repr

/-- Params of an inbound notification frame, as far as _handle_message
inspects them. -/
inductive NotifParams where
  | consoleMessage (level text : String)
  | consoleAPI (ty : String) (argVals : List String)
  | netRequest (url : String)
  | netResponse (status : Int) (url : String)
  | generic
deriving DecidableEq, Repr

/-- One inbound frame as decoded by the read loop: an optional response id,
an optional error message (the data error member), a result payload, a
method name (empty string when absent, as in data.get with default), and
the params. -/
structure Frame where
  id? : Option Nat
  error? : Option String
  result : String
  method : String
  params : NotifParams
deriving Repr

/-- Level of a console message with the same default as msg.get in the
source. -/
def msgLevel : NotifParams → String
  | .consoleMessage lv _ => lv
  | _ => "log"

/-- Text of a console message with the same default as msg.get in the
source. -/
def msgText : NotifParams → String
  | .consoleMessage _ tx => tx
  | _ => ""

/-- Kind of a consoleAPICalled notification with the same default as
params.get in the source. -/
def apiType : NotifParams → String
  | .consoleAPI ty _ => ty
  | _ => "log"

/-- Argument values of a consoleAPICalled notification. -/
def apiArgs : NotifParams → List String
  | .consoleAPI _ a => a
  | _ => []

/-- Url of a requestWillBeSent notification. -/
def reqUrl : NotifParams → String
  | .netRequest u => u
  | _ => ""

/-- Status of a responseReceived notification. -/
def respStatus : NotifParams → Int
  | .netResponse st _ => st
  | _ => 0

/-- Url of a responseReceived notification. -/
def respUrl : NotifParams → String
  | .netResponse _ u => u
  | _ => ""

/-- Log line built for a console notification, as the f-string in
_handle_message. -/
def consoleLine (level text : String) : String :=
  "[" ++ level ++ "] " ++ text

/-- First section of CDPClient._handle_message: when the frame carries a
response id that is pending, pop it and complete the future, with the
protocol error when the frame has an error member and with the result
payload otherwise. -/
def respond (s : ClientState) (f : Frame) : ClientState × List Resolution :=
  match f.id? with
  | some i =>
    if s.pending.contains i then
      ({ s with pending := s.pending.erase i },
       match f.error? with
       | some m => [Resolution.protocolError i m]
       | none => [Resolution.result i f.result])
    else (s, [])
  | none => (s, [])

/-- Second section of CDPClient._handle_message: append to console_logs or
network_events according to the method name. -/
def appendLogs (s : ClientState) (f : Frame) : ClientState :=
  if f.method = "Console.messageAdded" then
    { s with console_logs :=
        s.console_logs ++ [consoleLine (msgLevel f.params) (msgText f.params)] }
  else if f.method = "Runtime.consoleAPICalled" then
    { s with console_logs :=
        s.console_logs ++
          [consoleLine (apiType f.params) (String.intercalate " " (apiArgs f.params))] }
  else if f.method = "Network.requestWillBeSent" then
    { s with network_events :=
        s.network_events ++ [NetEvent.request (reqUrl f.params)] }
  else if f.method = "Network.responseReceived" then
    { s with network_events :=
        s.network_events ++
          [NetEvent.response (respStatus f.params) ((respUrl f.params).take 100)] }
  else s

/-- Embedding of CDPClient._handle_message for the response-correlation and
log-append sections, run in source order.  Listener dispatch, the final
section of the source function, is notifyAll below. -/
def handleData (s : ClientState) (f : Frame) : ClientState × List Resolution :=
  let step := respond s f
  (appendLogs step.1 f, step.2)

/-- Folding handleData over a whole inbound stream, state only. -/
def processFrames (s : ClientState) (fs : List Frame) : ClientState :=
  fs.foldl (fun a f => (handleData a f).1) s

/-- Trace of one listener-dispatch pass: which callback ids ran, in order,
and which error lines were printed by the per-callback except clause. -/
structure DispatchTrace where
  invoked : List Nat
  logged : List String
deriving DecidableEq, Repr

/-- One turn of the listener-notification loop: invoke the callback inside
a try block; a raised exception is caught and printed, so the trace records
the invocation either way and the error line when it raised. -/
def notifyStep (params : String) (acc : DispatchTrace) (cb : Callback) :
    DispatchTrace :=
  match cb.run params with
  | .ok _ => { acc with invoked := acc.invoked ++ [cb.cid] }
  | .error e =>
      { invoked := acc.invoked ++ [cb.cid]
        logged := acc.logged ++ ["Listener error: " ++ e] }

/-- Embedding of the listener-notification loop at the end of
_handle_message: every callback registered for the method is processed in
list order; the per-callback except clause keeps the loop going after a
raised exception. -/
def notifyAll (cbs : List Callback) (params : String) : DispatchTrace :=
  cbs.foldl (notifyStep params) ⟨[], []⟩

/-- Listener table: the listeners dictionary of the client, an association
list from event name to the registered callbacks in registration order. -/
def lookupListeners (ls : List (String × List Callback)) (event : String) :
    List Callback :=
  match ls.find? (fun p => p.1 = event) with
  | some p => p.2
  | none => []

/-- Embedding of CDPClient.on: create the slot for the event if absent,
then append the callback. -/
def onRegister (ls : List (String × List Callback)) (event : String)
    (cb : Callback) : List (String × List Callback) :=
  if ls.any (fun p => p.1 = event) then
    ls.map (fun p => if p.1 = event then (p.1, p.2 ++ [cb]) else p)
  else ls ++ [(event, [cb])]

/-- Failure modes of CDPClient.send, one per raise site in the source. -/
inductive SendError where
  | notConnected
  | sendFailed (e : String)
  | protocolError (message : String)
  | commandTimeout (timeout : Nat) (method : String)
deriving DecidableEq, Repr

/-- Behaviour of the wire for one command, the oracle send is run against:
the socket write fails, or a matching response frame with a result arrives
in time, or a matching frame with an error member arrives in time, or no
matching frame arrives before the timeout elapses. -/
inductive WireBehavior where
  | writeFails (e : String)
  | replyResult (payload : String)
  | replyError (message : String)
  | noReply
deriving DecidableEq, Repr

/-- Embedding of CDPClient.send: refuse when not connected; allocate the
next id by incrementing msg_id; record the pending entry; write the frame,
removing the entry on a write failure; then either the read loop resolves
the future (a matching reply pops the entry in _handle_message and
completes it with the result or with the protocol error), or the timeout
elapses and the except branch pops the entry and raises the command-timeout
error carrying the timeout and the method. -/
def send (s : ClientState) (method : String) (timeout : Nat)
    (w : WireBehavior) : ClientState × Except SendError String :=
  if s.connected then
    let mid := s.msg_id + 1
    let s1 := { s with msg_id := mid, pending := s.pending ++ [mid] }
    match w with
    | .writeFails e =>
        ({ s1 with pending := s1.pending.erase mid }, .error (.sendFailed e))
    | .replyResult p =>
        ({ s1 with pending := s1.pending.erase mid }, .ok p)
    | .replyError m =>
        ({ s1 with pending := s1.pending.erase mid },
         .error (.protocolError m))
    | .noReply =>
        ({ s1 with pending := s1.pending.erase mid },
         .error (.commandTimeout timeout method))
  else (s, .error .notConnected)

/-- One request of a send sequence: the arguments of one send call plus the
wire oracle for it. -/
structure SendReq where
  method : String
  timeout : Nat
  wire : WireBehavior

/-- Run a sequence of send calls, collecting the correlation ids that the
calls allocate.  A call made while disconnected raises before the id
allocation, so it contributes no id. -/
def runSends (s : ClientState) : List SendReq → ClientState × List Nat
  | [] => (s, [])
  | r :: rs =>
      let step := send s r.method r.timeout r.wire
      let rest := runSends step.1 rs
      if s.connected then (rest.1, (s.msg_id + 1) :: rest.2)
      else (rest.1, rest.2)

/-- Embedding of CDPClient.close: set the connected flag false, cancel the
listener task, close the socket.  The body never touches the pending map
and completes no pending future, so the emitted resolution list is empty. -/
def close (s : ClientState) : ClientState × List Resolution :=
  ({ s with connected := false, listenerActive := false }, [])

/-- Oracle for one run of CDPClient.click: the outcome of every protocol
call the body can make.  An error value models the awaited send or evaluate
raising; for getDocument, querySelector and getBoxModel, a none payload
models the falsy or missing result the source tests for (doc falsy, node
missing or nodeId zero, box without a model member).  The content quad is
the eight coordinates of the box model content. -/
structure ClickEnv where
  enable : Except String Unit
  getDoc : Except String (Option Nat)
  query : Except String (Option Nat)
  boxModel : Except String (Option (Int × Int × Int × Int × Int × Int × Int × Int))
  press : Except String Unit
  release : Except String Unit
  jsClick : Except String Bool

/-- Embedding of CDPClient.click_pixel: dispatch mouse press then release
inside a try block; any raised exception is caught and the function returns
false, otherwise true.  It never raises. -/
def click_pixel (env : ClickEnv) : Bool :=
  match env.press with
  | .error _ => false
  | .ok _ =>
      match env.release with
      | .error _ => false
      | .ok _ => true

/-- Embedding of CDPClient.click.  The first component is the returned
value, with an error modelling an exception escaping the call; the second
component records whether the scripted fallback (the evaluate of the
querySelector-and-click script) was invoked.  Shape of the source body:
inside a try, enable the DOM domain, get the document (falsy document
returns false), query the selector (missing node runs the scripted
fallback), get the box model (missing model returns false), compute the
content-quad center and run click_pixel, discarding its outcome, and return
true; any exception raised in the try body runs the scripted fallback from
the except clause.  A fallback evaluate that raises inside the try is
caught by the except clause, which reruns the same evaluate; with a fixed
oracle the rerun returns the same outcome, so both fallback sites reduce to
the jsClick oracle value. -/
def clickRun (env : ClickEnv) : Except String Bool × Bool :=
  match env.enable with
  | .error _ => (env.jsClick, true)
  | .ok _ =>
      match env.getDoc with
      | .error _ => (env.jsClick, true)
      | .ok none => (Except.ok false, false)
      | .ok (some _root) =>
          match env.query with
          | .error _ => (env.jsClick, true)
          | .ok none => (env.jsClick, true)
          | .ok (some _node) =>
              match env.boxModel with
              | .error _ => (env.jsClick, true)
              | .ok none => (Except.ok false, false)
              | .ok (some q) =>
                  let x : Int := (q.1 + q.2.2.1 + q.2.2.2.2.1 + q.2.2.2.2.2.2.1) / 4
                  let y : Int :=
                    (q.2.1 + q.2.2.2.1 + q.2.2.2.2.2.1 + q.2.2.2.2.2.2.2) / 4
                  let _ := (x, y, click_pixel env)
                  (Except.ok true, false)

/-- Characterization used by the amended click property: the conditions
under which the source body reaches a scripted-fallback site, read off the
control flow of clickRun. -/
def fallbackTriggers (env : ClickEnv) : Bool :=
  match env.enable with
  | .error _ => true
  | .ok _ =>
      match env.getDoc with
      | .error _ => true
      | .ok none => false
      | .ok (some _) =>
          match env.query with
          | .error _ => true
          | .ok none => true
          | .ok (some _) =>
              match env.boxModel with
              | .error _ => true
              | .ok _ => false

/-- Structural-step full success: every protocol call of the geometry path
returns a usable payload. -/
def structuralOk (env : ClickEnv) : Prop :=
  env.enable = .ok () ∧ (∃ r, env.getDoc = .ok (some r)) ∧
    (∃ n, env.query = .ok (some n)) ∧ ∃ q, env.boxModel = .ok (some q)

end CDP

namespace Exec

/-- Module-level path configuration of browser_executor.py. -/
def ARTIFACT_DIR : String :=
  "C:\\Users\\wk23aau\\.gemini\\antigravity\\brain\\71cf46f0-82ad-414c-aa2b-20eae562e97a"

/-- Join of two Windows path segments as os.path.join produces here. -/
def joinPath (a b : String) : String := a ++ "\\" ++ b

/-- Path of the snapshot state file. -/
def STATE_FILE : String := joinPath ARTIFACT_DIR "browser_state.json"

/-- Path of the decision file. -/
def ACTIONS_FILE : String := joinPath ARTIFACT_DIR "actions.json"

/-- Path of the screenshots directory. -/
def SCREENSHOTS_DIR : String := joinPath ARTIFACT_DIR "screenshots"

/-- One action descriptor: the dictionary handed to
BrowserExecutor.execute_action.  Every field the dispatch reads with
action.get is an Option, none modelling an absent key; the get default is
applied at each use site exactly as in the source. -/
structure Action where
  type : Option String := none
  url : Option String := none
  selector : Option String := none
  text : Option String := none
  key : Option String := none
  role : Option String := none
  name : Option String := none
  placeholder : Option String := none
  timeout : Option Nat := none
  direction : Option String := none
  amount : Option Int := none
  x : Option Int := none
  y : Option Int := none
  x1 : Option Int := none
  y1 : Option Int := none
  x2 : Option Int := none
  y2 : Option Int := none
  width : Option Int := none
  height : Option Int := none
  code : Option String := none
  script : Option String := none
  method : Option String := none
  value : Option String := none

/-- Result envelope of execute_action: the status and message strings of
the returned dictionary. -/
structure ActionResult where
  status : String
  message : String
deriving DecidableEq, Repr

/-- Outcome of the awaited page work of one dispatch branch: ok with the
value the branch reads back (page content, script result, and so on,
serialized), or error with the text of the raised exception. -/
abbrev Effect := Except String String

/-- Try-body shape shared by the effectful branches: a successful await
produces a success envelope whose message may use the awaited value; a
raised exception is caught by the enclosing except clause and converted to
an error envelope carrying str of the exception. -/
def withEff (eff : Effect) (msg : String → String) : ActionResult :=
  match eff with
  | .ok v => ⟨"success", msg v⟩
  | .error e => ⟨"error", e⟩

/-- Embedding of BrowserExecutor.execute_action.  The iteration argument is
the executor iteration counter (used by the screenshot default name); eff
is the oracle for the awaited page work of the selected branch.  Branch
order, get defaults and message strings follow the source.  The
dismiss_cookies branch and the cookie-banner helper catch every per-selector
exception internally and so always succeed; the wait branch is a no-op; the
done and unknown branches await nothing, so none of these four consults the
effect oracle.  The click branch awaits nothing when both the text and the
selector are empty.  Every other branch converts a raised exception into an
error envelope via withEff. -/
def executeAction (iteration : Nat) (a : Action) (eff : Effect) :
    ActionResult :=
  let ty := a.type.getD ""
  if ty = "navigate" then
    withEff eff (fun _ => "Navigated to " ++ a.url.getD "")
  else if ty = "dismiss_cookies" then
    ⟨"success", "Attempted cookie banner dismissal"⟩
  else if ty = "click" then
    let selector := a.selector.getD ""
    let text := a.text.getD ""
    if text = "" ∧ selector = "" then
      ⟨"success", "Clicked " ++ (if selector ≠ "" then selector else text)⟩
    else
      withEff eff
        (fun _ => "Clicked " ++ (if selector ≠ "" then selector else text))
  else if ty = "type" then
    withEff eff (fun _ => "Typed '" ++ (a.text.getD "").take 20 ++ "...'")
  else if ty = "human_type" then
    withEff eff (fun _ => "Human-typed '" ++ (a.text.getD "").take 20 ++ "...'")
  else if ty = "press" then
    withEff eff (fun _ => "Pressed " ++ a.key.getD "Enter")
  else if ty = "click_role" then
    withEff eff
      (fun _ => "Clicked role=" ++ a.role.getD "button" ++ " name=" ++ a.name.getD "")
  else if ty = "click_placeholder" then
    withEff eff (fun _ => "Clicked placeholder=" ++ a.placeholder.getD "")
  else if ty = "fill_placeholder" then
    withEff eff (fun _ => "Filled placeholder=" ++ a.placeholder.getD "")
  else if ty = "wait_for_text" then
    withEff eff (fun _ => "Found text: " ++ a.text.getD "")
  else if ty = "scroll_to_text" then
    withEff eff (fun _ => "Scrolled to: " ++ a.text.getD "")
  else if ty = "scroll" then
    withEff eff (fun _ => "Scrolled " ++ a.direction.getD "down")
  else if ty = "wait" then
    ⟨"success", "Wait skipped (no delays)"⟩
  else if ty = "screenshot" then
    let nm := a.name.getD ("manual_" ++ toString iteration)
    withEff eff (fun _ => "Screenshot: " ++ joinPath SCREENSHOTS_DIR (nm ++ ".png"))
  else if ty = "execute_js" then
    withEff eff (fun v => "JS result: " ++ v.take 100)
  else if ty = "get_dom" then
    withEff eff (fun v =>
      "DOM saved: " ++ joinPath ARTIFACT_DIR "page_dom.html" ++
        " (" ++ toString v.length ++ " chars)")
  else if ty = "get_page_text" then
    withEff eff (fun v => "Text saved: " ++ toString v.length ++ " chars")
  else if ty = "go_back" then
    withEff eff (fun _ => "Went back")
  else if ty = "go_forward" then
    withEff eff (fun _ => "Went forward")
  else if ty = "reload" then
    withEff eff (fun _ => "Page reloaded")
  else if ty = "mouse_move" then
    withEff eff (fun _ =>
      "Mouse moved to (" ++ toString (a.x.getD 0) ++ ", " ++
        toString (a.y.getD 0) ++ ")")
  else if ty = "mouse_click" then
    withEff eff (fun _ =>
      "Mouse clicked at (" ++ toString (a.x.getD 0) ++ ", " ++
        toString (a.y.getD 0) ++ ")")
  else if ty = "mouse_drag" then
    withEff eff (fun _ =>
      "Dragged (" ++ toString (a.x1.getD 0) ++ "," ++ toString (a.y1.getD 0) ++
        ") to (" ++ toString (a.x2.getD 0) ++ "," ++ toString (a.y2.getD 0) ++ ")")
  else if ty = "wait_for_selector" then
    withEff eff (fun _ => "Found selector: " ++ a.selector.getD "")
  else if ty = "wait_for_navigation" then
    withEff eff (fun _ => "Navigation complete")
  else if ty = "select_option" then
    withEff eff (fun _ => "Selected " ++ a.value.getD "")
  else if ty = "set_viewport" then
    withEff eff (fun _ =>
      "Viewport set to " ++ toString (a.width.getD 1280) ++ "x" ++
        toString (a.height.getD 720))
  else if ty = "save_pdf" then
    withEff eff (fun _ =>
      "PDF saved: " ++ joinPath ARTIFACT_DIR (a.name.getD "page" ++ ".pdf"))
  else if ty = "hover" then
    withEff eff (fun _ => "Hovered: " ++ a.selector.getD "")
  else if ty = "focus" then
    withEff eff (fun _ => "Focused: " ++ a.selector.getD "")
  else if ty = "cdp_send" then
    withEff eff (fun v => "CDP " ++ a.method.getD "" ++ ": " ++ v.take 100)
  else if ty = "inject_script" then
    withEff eff (fun _ => "Script injected")
  else if ty = "run_analysis" then
    withEff eff (fun _ =>
      "Analysis saved: " ++ joinPath ARTIFACT_DIR "analysis_result.json")
  else if ty = "done" then
    ⟨"done", "Task complete"⟩
  else
    ⟨"error", "Unknown action: " ++ ty⟩

/-- Recognized action kinds in dispatch order. -/
def knownActionTypes : List String :=
  ["navigate", "dismiss_cookies", "click", "type", "human_type", "press",
   "click_role", "click_placeholder", "fill_placeholder", "wait_for_text",
   "scroll_to_text", "scroll", "wait", "screenshot", "execute_js", "get_dom",
   "get_page_text", "go_back", "go_forward", "reload", "mouse_move",
   "mouse_click", "mouse_drag", "wait_for_selector", "wait_for_navigation",
   "select_option", "set_viewport", "save_pdf", "hover", "focus", "cdp_send",
   "inject_script", "run_analysis", "done"]

/-- Whether the branch selected for this action awaits page work whose
exception would be converted by the except clause, that is, whether
executeAction consults the effect oracle.  The chain mirrors the dispatch
chain of executeAction branch for branch. -/
def consultsEffect (a : Action) : Bool :=
  let ty := a.type.getD ""
  if ty = "navigate" then true
  else if ty = "dismiss_cookies" then false
  else if ty = "click" then
    let selector := a.selector.getD ""
    let text := a.text.getD ""
    if text = "" ∧ selector = "" then false else true
  else if ty = "type" then true
  else if ty = "human_type" then true
  else if ty = "press" then true
  else if ty = "click_role" then true
  else if ty = "click_placeholder" then true
  else if ty = "fill_placeholder" then true
  else if ty = "wait_for_text" then true
  else if ty = "scroll_to_text" then true
  else if ty = "scroll" then true
  else if ty = "wait" then false
  else if ty = "screenshot" then true
  else if ty = "execute_js" then true
  else if ty = "get_dom" then true
  else if ty = "get_page_text" then true
  else if ty = "go_back" then true
  else if ty = "go_forward" then true
  else if ty = "reload" then true
  else if ty = "mouse_move" then true
  else if ty = "mouse_click" then true
  else if ty = "mouse_drag" then true
  else if ty = "wait_for_selector" then true
  else if ty = "wait_for_navigation" then true
  else if ty = "select_option" then true
  else if ty = "set_viewport" then true
  else if ty = "save_pdf" then true
  else if ty = "hover" then true
  else if ty = "focus" then true
  else if ty = "cdp_send" then true
  else if ty = "inject_script" then true
  else if ty = "run_analysis" then true
  else if ty = "done" then false
  else false

/-- Zero-padded three-digit iteration number, as the 03d format of the
screenshot file name in capture_state. -/
def pad3 (n : Nat) : String :=
  if n < 10 then "00" ++ toString n
  else if n < 100 then "0" ++ toString n
  else toString n

/-- Screenshot path written by capture_state for one iteration. -/
def screenshotFile (it : Nat) : String :=
  joinPath SCREENSHOTS_DIR (pad3 it ++ ".png")

/-- Serialized BrowserStateSnapshot: the json.dump with indent 2 of the
state dictionary built in capture_state, with the timestamp and the
serialized elements inventory as parameters (they come from the wall clock
and the live page). -/
def stateJson (iteration : Nat) (timestamp task url title elements : String) :
    String :=
  "\x7b\n  \"iteration\": " ++ toString iteration ++
    ",\n  \"timestamp\": \"" ++ timestamp ++
    "\",\n  \"task\": \"" ++ task ++
    "\",\n  \"url\": \"" ++ url ++
    "\",\n  \"title\": \"" ++ title ++
    "\",\n  \"screenshot\": \"" ++ screenshotFile iteration ++
    "\",\n  \"elements\": " ++ elements ++ "\n\x7d"

/-- File contents a concurrent reader of the state file can observe while
capture_state writes it.  The source opens STATE_FILE in w mode, which
truncates the file to empty, and json.dump then appends the serialization
incrementally, so the observable contents are exactly the prefixes of the
payload, from the empty file up to the complete record. -/
def overwriteObservables (payload : String) : List (List Char) :=
  payload.toList.inits

/-- File contents a reader could observe under a write-then-rename
discipline: only the previous complete content or the new complete
content. -/
def renameObservables (old payload : String) : List (List Char) :=
  [old.toList, payload.toList]

/-- Torn-freedom of a write: every observable content is one of the two
complete records. -/
def tornFree (old final : List Char) (obs : List (List Char)) : Prop :=
  ∀ o ∈ obs, o = old ∨ o = final

/-- Result of one capture_state call: the incremented iteration counter,
the serialized snapshot, and the contents observable while it is written. -/
structure CaptureResult where
  iteration : Nat
  payload : String
  observables : List (List Char)

/-- Embedding of BrowserExecutor.capture_state: increment the iteration
counter, build the state dictionary, and overwrite STATE_FILE in place with
its serialization. -/
def captureState (iteration : Nat) (timestamp task url title elements : String) :
    CaptureResult :=
  let it := iteration + 1
  let payload := stateJson it timestamp task url title elements
  ⟨it, payload, overwriteObservables payload⟩

/-- Wall clock seen by wait_for_actions: the value of the n-th time call.
Successive calls are separated by file-system work, so the clock strictly
advances between them. -/
structure Clock where
  t : Nat → Nat
  strict : ∀ n, t n < t (n + 1)

/-- One ActionBatch read back from the decision file: the optional thinking
text and the action list, each action paired with the effect oracle for its
execution. -/
structure Batch where
  thinking : String := ""
  actions : List (Action × Effect) := []

/-- What one poll of the decision file observes: the file modification time
when the file exists, and the parse outcome when it is read. -/
structure PollObs where
  mtime : Option Nat
  parsed : Option Batch

/-- Loop of wait_for_actions from poll index n: while the clock read at the
top of the loop is within timeout of the start, look at the decision file;
when it exists with a modification time newer than the last consumed one,
read and parse it, returning the batch on success and continuing on a parse
error; otherwise keep polling.  When the timeout elapses return none.  The
second component is the poll index at exit. -/
def waitPoll (c : Clock) (obs : Nat → PollObs) (lastM start timeout : Nat)
    (n : Nat) : Option Batch × Nat :=
  if _h : c.t n - start < timeout then
    match (obs n).mtime with
    | some m =>
        if lastM < m then
          match (obs n).parsed with
          | some b => (some b, n)
          | none => waitPoll c obs lastM start timeout (n + 1)
        else waitPoll c obs lastM start timeout (n + 1)
    | none => waitPoll c obs lastM start timeout (n + 1)
  else (none, n)
termination_by start + timeout - c.t n
decreasing_by
  have hs := c.strict n
  omega

/-- Embedding of BrowserExecutor.wait_for_actions: record the entry
modification time of the decision file (zero when absent), take the start
time, and poll.  The start uses clock call zero; the first loop check is
clock call one. -/
def waitForActions (c : Clock) (obs : Nat → PollObs) (entry : Option Nat)
    (timeout : Nat) : Option Batch × Nat :=
  waitPoll c obs (entry.getD 0) (c.t 0) timeout 1

/-- Inner action loop of run_task: execute each action of the batch in
order through execute_action; a done result sets the done flag and breaks;
an error result is printed and the loop continues.  Returns the done
flag. -/
def execBatch (it : Nat) : List (Action × Effect) → Bool
  | [] => false
  | (a, eff) :: rest =>
      let r := executeAction it a eff
      if r.status = "done" then true
      else execBatch it rest

/-- Reason run_task stopped looping: the decision wait timed out, an action
reported done, or the iteration ceiling was reached. -/
inductive RunReason where
  | timeout
  | completed
  | exhausted
deriving DecidableEq, Repr

/-- Counters of one run_task execution: capture_state calls, decision
waits, loop iterations entered, the executor iteration counter at the end,
and the stop reason. -/
structure RunResult where
  snapshots : Nat
  waits : Nat
  itersEntered : Nat
  finalIteration : Nat
  reason : RunReason
deriving DecidableEq, Repr

/-- Loop of run_task with the remaining iteration budget as fuel: each
entered iteration captures a snapshot then waits for a decision; a missing
decision breaks with the timeout reason, a batch whose execution reports
done breaks with the completed reason, otherwise the loop continues until
the budget is exhausted.  On every exit path the final capture_state call
is counted.  The decision source is indexed by the loop counter. -/
def runTaskLoop (decide : Nat → Option Batch) (it k : Nat) :
    Nat → RunResult
  | 0 => ⟨1, 0, 0, it + 1, .exhausted⟩
  | fuel + 1 =>
      let it1 := it + 1
      match decide k with
      | none => ⟨2, 1, 1, it1 + 1, .timeout⟩
      | some batch =>
          if execBatch it1 batch.actions then ⟨2, 1, 1, it1 + 1, .completed⟩
          else
            let r := runTaskLoop decide it1 (k + 1) fuel
            ⟨r.snapshots + 1, r.waits + 1, r.itersEntered + 1,
             r.finalIteration, r.reason⟩

/-- Embedding of BrowserExecutor.run_task: run the decide-act loop for at
most maxIterations iterations from the current executor iteration counter,
then capture the final snapshot. -/
def runTask (decide : Nat → Option Batch) (maxIterations it : Nat) :
    RunResult :=
  runTaskLoop decide it 0 maxIterations

end Exec

/-! Concrete fixtures used by the claim theorems. -/

/-- Client with three requests in flight. -/
def pendingThreeState : CDP.ClientState :=
  { CDP.connectedInit with pending := [1, 2, 3] }

/-- Console-message notification frame. -/
def consoleFrame : CDP.Frame :=
  { id? := none, error? := none, result := ""
    method := "Console.messageAdded"
    params := CDP.NotifParams.consoleMessage "log" "hello" }

/-- Whether handling a frame appends a console-log entry, read off the
method chain of handleData. -/
def isConsoleWorthy (f : CDP.Frame) : Bool :=
  if f.method = "Console.messageAdded" then true
  else if f.method = "Runtime.consoleAPICalled" then true
  else false

/-- Whether handling a frame appends a network-log entry, read off the
method chain of handleData. -/
def isNetworkWorthy (f : CDP.Frame) : Bool :=
  if f.method = "Console.messageAdded" then false
  else if f.method = "Runtime.consoleAPICalled" then false
  else if f.method = "Network.requestWillBeSent" then true
  else if f.method = "Network.responseReceived" then true
  else false

/-- Click oracle under which the document and the node are found but the
box-model call returns no usable model, while the scripted fallback would
find the element. -/
def envBoxNone : CDP.ClickEnv :=
  { enable := (Except.ok ()), getDoc := (Except.ok (some 1))
    query := (Except.ok (some 7)), boxModel := (Except.ok none)
    press := (Except.ok ()), release := (Except.ok ())
    jsClick := (Except.ok true) }

/-- Click oracle under which the whole structural geometry path
succeeds. -/
def envAllOk : CDP.ClickEnv :=
  { enable := (Except.ok ()), getDoc := (Except.ok (some 1))
    query := (Except.ok (some 7))
    boxModel := (Except.ok (some (0, 0, 10, 0, 10, 10, 0, 10)))
    press := (Except.ok ()), release := (Except.ok ())
    jsClick := (Except.ok true) }

/-- Decision source that never produces a batch. -/
def neverDecide : Nat → Option Exec.Batch := fun _ => none

/-- Complete serialized snapshot already on disk from the previous
iteration. -/
def exOldSnapshot : String :=
  Exec.stateJson 1 "2026-10-12T10:00:00" "demo" "https://example.test"
    "Example" "\x7b\x7d"

/-- Capture of the following iteration. -/
def exCapture : Exec.CaptureResult :=
  Exec.captureState 1 "2026-10-12T10:00:05" "demo" "https://example.test"
    "Example" "\x7b\x7d"

/-- Well-formed envelope statuses of execute_action results. -/
def statusOk (r : Exec.ActionResult) : Prop :=
  r.status = "success" ∨ r.status = "error" ∨ r.status = "done"

/-! Helper lemmas shared by the claim theorems. -/

theorem send_connected_eq (s : CDP.ClientState) (m : String) (t : Nat)
    (w : CDP.WireBehavior) : (CDP.send s m t w).1.connected = s.connected := by
  unfold CDP.send
  split_ifs with h
  · cases w <;> rfl
  · rfl

theorem send_msg_id_eq (s : CDP.ClientState) (m : String) (t : Nat)
    (w : CDP.WireBehavior) :
    (CDP.send s m t w).1.msg_id
      = if s.connected then s.msg_id + 1 else s.msg_id := by
  unfold CDP.send
  split_ifs with h
  · cases w <;> rfl
  · rfl

theorem runSends_ids_gt (reqs : List CDP.SendReq) :
    ∀ (s : CDP.ClientState) (x : Nat),
      x ∈ (CDP.runSends s reqs).2 → s.msg_id < x := by
  induction reqs with
  | nil => intro s x hx; simp [CDP.runSends] at hx
  | cons r rs ih =>
      intro s x hx
      unfold CDP.runSends at hx
      by_cases hc : s.connected
      · rw [if_pos hc] at hx
        rcases List.mem_cons.mp hx with h | h
        · omega
        · have := ih (CDP.send s r.method r.timeout r.wire).1 x h
          rw [send_msg_id_eq, if_pos hc] at this
          omega
      · rw [if_neg hc] at hx
        have := ih (CDP.send s r.method r.timeout r.wire).1 x hx
        rw [send_msg_id_eq, if_neg hc] at this
        exact this

theorem foldl_notifyStep_invoked (params : String) (cbs : List CDP.Callback) :
    ∀ acc : CDP.DispatchTrace,
      (List.foldl (CDP.notifyStep params) acc cbs).invoked
        = acc.invoked ++ cbs.map (fun cb => cb.cid) := by
  induction cbs with
  | nil => intro acc; simp
  | cons cb cbs ih =>
      intro acc
      rw [List.foldl_cons, ih]
      cases h : cb.run params <;>
        simp [CDP.notifyStep, h]

theorem respond_preserves_logs (s : CDP.ClientState) (f : CDP.Frame) :
    (CDP.respond s f).1.console_logs = s.console_logs ∧
    (CDP.respond s f).1.network_events = s.network_events := by
  unfold CDP.respond
  cases hid : f.id? with
  | none => exact ⟨rfl, rfl⟩
  | some i =>
      dsimp only
      by_cases hp : s.pending.contains i = true
      · rw [if_pos hp]; exact ⟨rfl, rfl⟩
      · rw [if_neg hp]; exact ⟨rfl, rfl⟩

theorem appendLogs_lengths (s : CDP.ClientState) (f : CDP.Frame) :
    (CDP.appendLogs s f).console_logs.length
        = s.console_logs.length + (if isConsoleWorthy f then 1 else 0) ∧
    (CDP.appendLogs s f).network_events.length
        = s.network_events.length + (if isNetworkWorthy f then 1 else 0) := by
  unfold CDP.appendLogs isConsoleWorthy isNetworkWorthy
  split_ifs <;> simp_all

theorem handleData_fst_console (s : CDP.ClientState) (f : CDP.Frame) :
    (CDP.handleData s f).1.console_logs.length
      = s.console_logs.length + (if isConsoleWorthy f then 1 else 0) := by
  have h1 := (appendLogs_lengths (CDP.respond s f).1 f).1
  have h2 := (respond_preserves_logs s f).1
  unfold CDP.handleData
  rw [h1, h2]

theorem handleData_fst_network (s : CDP.ClientState) (f : CDP.Frame) :
    (CDP.handleData s f).1.network_events.length
      = s.network_events.length + (if isNetworkWorthy f then 1 else 0) := by
  have h1 := (appendLogs_lengths (CDP.respond s f).1 f).2
  have h2 := (respond_preserves_logs s f).2
  unfold CDP.handleData
  rw [h1, h2]

theorem processFrames_log_lengths (fs : List CDP.Frame) :
    ∀ s : CDP.ClientState,
      (CDP.processFrames s fs).console_logs.length
          = s.console_logs.length + fs.countP isConsoleWorthy ∧
      (CDP.processFrames s fs).network_events.length
          = s.network_events.length + fs.countP isNetworkWorthy := by
  induction fs with
  | nil => intro s; simp [CDP.processFrames]
  | cons f fs ih =>
      intro s
      have hstep1 := handleData_fst_console s f
      have hstep2 := handleData_fst_network s f
      have hih := ih (CDP.handleData s f).1
      have hrw : CDP.processFrames s (f :: fs)
          = CDP.processFrames (CDP.handleData s f).1 fs := rfl
      rw [hrw, List.countP_cons, List.countP_cons]
      constructor
      · rw [hih.1, hstep1]
        by_cases hw : isConsoleWorthy f <;> (simp [hw]; try omega)
      · rw [hih.2, hstep2]
        by_cases hw : isNetworkWorthy f <;> (simp [hw]; try omega)

theorem countP_replicate_self {α : Type} (p : α → Bool) (a : α) (n : Nat) :
    (List.replicate n a).countP p = if p a then n else 0 := by
  induction n with
  | zero => simp
  | succ n ih =>
      rw [List.replicate_succ, List.countP_cons, ih]
      split_ifs <;> omega

theorem clock_lower_bound (c : Exec.Clock) : ∀ n : Nat, c.t 0 + n ≤ c.t n := by
  intro n
  induction n with
  | zero => omega
  | succ n ih =>
      have := c.strict n
      omega

theorem waitPoll_exit_bound (c : Exec.Clock) (obs : Nat → Exec.PollObs)
    (lastM timeout : Nat) :
    ∀ n, n ≤ max 1 timeout →
      (Exec.waitPoll c obs lastM (c.t 0) timeout n).2 ≤ max 1 timeout := by
  have key : ∀ d n, timeout - n ≤ d → n ≤ max 1 timeout →
      (Exec.waitPoll c obs lastM (c.t 0) timeout n).2 ≤ max 1 timeout := by
    intro d
    induction d with
    | zero =>
        intro n hd hn
        have hcn := clock_lower_bound c n
        rw [Exec.waitPoll, dif_neg (by omega)]
        exact hn
    | succ d ih =>
        intro n hd hn
        rw [Exec.waitPoll]
        by_cases hg : c.t n - c.t 0 < timeout
        · rw [dif_pos hg]
          have hcn := clock_lower_bound c n
          have hnlt : n < timeout := by omega
          have hbound : n + 1 ≤ max 1 timeout :=
            le_trans (by omega) (le_max_right 1 timeout)
          have hrec := ih (n + 1) (by omega) hbound
          cases hm : (obs n).mtime with
          | none => exact hrec
          | some m =>
              dsimp only
              by_cases hlt : lastM < m
              · rw [if_pos hlt]
                cases hp : (obs n).parsed with
                | some b =>
                    dsimp only
                    exact le_trans (le_of_lt hnlt) (le_max_right 1 timeout)
                | none => exact hrec
              · rw [if_neg hlt]; exact hrec
        · rw [dif_neg hg]
          exact hn
  intro n hn
  exact key (timeout - n) n le_rfl hn

theorem runTaskLoop_bounds (d : Nat → Option Exec.Batch) :
    ∀ (fuel it k : Nat),
      (Exec.runTaskLoop d it k fuel).itersEntered ≤ fuel ∧
      (Exec.runTaskLoop d it k fuel).waits ≤ fuel ∧
      (Exec.runTaskLoop d it k fuel).snapshots ≤ fuel + 1 := by
  intro fuel
  induction fuel with
  | zero => intro it k; simp [Exec.runTaskLoop]
  | succ fuel ih =>
      intro it k
      unfold Exec.runTaskLoop
      cases hd : d k with
      | none => simp
      | some batch =>
          dsimp only
          by_cases hb : Exec.execBatch (it + 1) batch.actions = true
          · rw [if_pos hb]
            refine ⟨?_, ?_, ?_⟩ <;> (dsimp only; omega)
          · rw [if_neg hb]
            have := ih (it + 1) (k + 1)
            refine ⟨?_, ?_, ?_⟩ <;> simp <;> omega

/-! Claim theorems. -/

/-- C1 (amended): closing the connection stops the read loop (the listener
task is cancelled) and marks the client disconnected, but it resolves no
pending request: the pending set is untouched, no resolution event of any
kind (in particular no connection-closed one) is emitted, and every later
send fails as not connected. -/
theorem close_stops_reader_but_resolves_nothing (s : CDP.ClientState) :
    (CDP.close s).1.pending = s.pending ∧
    (CDP.close s).2 = [] ∧
    (CDP.close s).1.listenerActive = false ∧
    (CDP.close s).1.connected = false ∧
    ∀ (m : String) (t : Nat) (w : CDP.WireBehavior),
      (CDP.send (CDP.close s).1 m t w).2
        = Except.error CDP.SendError.notConnected := by
  refine ⟨rfl, rfl, rfl, rfl, ?_⟩
  intro m t w
  simp [CDP.send, CDP.close]

/-- C1 counterexample: on a client with three pending requests, close
leaves all three unresolved and emits no connection-closed resolution, so
closing does not resolve the pending requests. -/
theorem close_counterexample :
    (CDP.close pendingThreeState).1.pending = [1, 2, 3] ∧
    (CDP.close pendingThreeState).2 = [] ∧
    CDP.Resolution.connectionClosed 1 ∉ (CDP.close pendingThreeState).2 := by
  refine ⟨rfl, rfl, ?_⟩
  simp [CDP.close]

/-- C3: when no matching response frame arrives before the timeout
elapses, send removes the pending entry it recorded and fails with the
command-timeout error carrying the timeout and the method; the client
stays connected and a later send on the resulting state succeeds. -/
theorem send_timeout_discards_pending (s : CDP.ClientState) (method : String)
    (timeout : Nat) (hconn : s.connected = true)
    (hfresh : s.msg_id + 1 ∉ s.pending) :
    (CDP.send s method timeout CDP.WireBehavior.noReply).2
        = Except.error (CDP.SendError.commandTimeout timeout method) ∧
    (CDP.send s method timeout CDP.WireBehavior.noReply).1.pending
        = s.pending ∧
    (CDP.send s method timeout CDP.WireBehavior.noReply).1.connected = true ∧
    ∀ (m2 : String) (t2 : Nat) (p : String),
      (CDP.send (CDP.send s method timeout CDP.WireBehavior.noReply).1 m2 t2
          (CDP.WireBehavior.replyResult p)).2 = Except.ok p := by
  have hmid : (s.pending ++ [s.msg_id + 1]).erase (s.msg_id + 1)
      = s.pending := by
    rw [List.erase_append_right _ hfresh, List.erase_cons_head,
      List.append_nil]
  refine ⟨?_, ?_, ?_, ?_⟩
  · simp [CDP.send, hconn]
  · simp [CDP.send, hconn, hmid]
  · simp [CDP.send, hconn]
  · intro m2 t2 p
    simp [CDP.send, hconn]

/-- C3 witness: concrete timed-out send on a fresh client. -/
theorem send_timeout_discards_pending_witness :
    (CDP.send CDP.connectedInit "Page.navigate" 30 CDP.WireBehavior.noReply).2
        = Except.error (CDP.SendError.commandTimeout 30 "Page.navigate") ∧
    (CDP.send CDP.connectedInit "Page.navigate" 30
        CDP.WireBehavior.noReply).1.pending = [] := by
  have h := send_timeout_discards_pending CDP.connectedInit "Page.navigate" 30
    rfl (by decide)
  exact ⟨h.1, h.2.1⟩

/-- C8: within one connection lifetime, the correlation ids allocated by a
sequence of send calls are strictly increasing, hence pairwise distinct. -/
theorem send_ids_strictly_increasing (s : CDP.ClientState)
    (reqs : List CDP.SendReq) :
    List.Pairwise (· < ·) (CDP.runSends s reqs).2 := by
  induction reqs generalizing s with
  | nil => simp [CDP.runSends]
  | cons r rs ih =>
      unfold CDP.runSends
      by_cases hc : s.connected
      · rw [if_pos hc]
        refine List.pairwise_cons.mpr ⟨?_, ih _⟩
        intro x hx
        have := runSends_ids_gt rs _ x hx
        rw [send_msg_id_eq, if_pos hc] at this
        omega
      · rw [if_neg hc]
        exact ih _

/-- C6 (amended): the console and network buffers are append-only with no
capacity bound: processing any frame stream grows the console log by
exactly the number of console-worthy frames and the network log by exactly
the number of network-worthy frames; nothing is ever evicted. -/
theorem log_buffers_append_only (s : CDP.ClientState) (fs : List CDP.Frame) :
    (CDP.processFrames s fs).console_logs.length
        = s.console_logs.length + fs.countP isConsoleWorthy ∧
    (CDP.processFrames s fs).network_events.length
        = s.network_events.length + fs.countP isNetworkWorthy :=
  processFrames_log_lengths fs s

/-- C6 counterexample: no fixed capacity bounds the console log of a fresh
client: for every candidate capacity some inbound stream pushes the log
past it. -/
theorem console_buffer_unbounded :
    ¬ ∃ C : Nat, ∀ fs : List CDP.Frame,
        (CDP.processFrames CDP.connectedInit fs).console_logs.length ≤ C := by
  rintro ⟨C, h⟩
  have hlen :=
    (processFrames_log_lengths (List.replicate (C + 1) consoleFrame)
      CDP.connectedInit).1
  have hcount : (List.replicate (C + 1) consoleFrame).countP isConsoleWorthy
      = C + 1 := by
    rw [countP_replicate_self]
    simp [consoleFrame, isConsoleWorthy]
  have hinit : CDP.connectedInit.console_logs.length = 0 := rfl
  have hC := h (List.replicate (C + 1) consoleFrame)
  omega

/-- C7: for every notification, all callbacks registered for its name are
invoked in registration order, an exception raised by one callback being
caught and logged without stopping the remaining invocations; and
registering a callback appends it at the end of the list for its event. -/
theorem listener_dispatch_order_and_isolation :
    (∀ (cbs : List CDP.Callback) (params : String),
        (CDP.notifyAll cbs params).invoked = cbs.map (fun cb => cb.cid)) ∧
    (∀ (ls : List (String × List CDP.Callback)) (event : String)
        (cb : CDP.Callback),
        CDP.lookupListeners (CDP.onRegister ls event cb) event
          = CDP.lookupListeners ls event ++ [cb]) := by
  constructor
  · intro cbs params
    have h := foldl_notifyStep_invoked params cbs ⟨[], []⟩
    simpa [CDP.notifyAll] using h
  · intro ls event cb
    unfold CDP.onRegister CDP.lookupListeners
    by_cases h : ls.any (fun p => p.1 = event)
    · rw [if_pos h]
      rw [List.find?_map]
      have hpf : ((fun p : String × List CDP.Callback => decide (p.1 = event))
            ∘ (fun p : String × List CDP.Callback =>
                if p.1 = event then (p.1, p.2 ++ [cb]) else p))
          = fun p : String × List CDP.Callback => decide (p.1 = event) := by
        funext p
        by_cases hp : p.1 = event <;> simp [hp]
      rw [hpf]
      obtain ⟨q, hq, hqe⟩ := List.any_eq_true.mp h
      have hsome : (ls.find? fun p => decide (p.1 = event)).isSome := by
        rw [List.find?_isSome]
        exact ⟨q, hq, hqe⟩
      obtain ⟨q', hq'⟩ := Option.isSome_iff_exists.mp hsome
      have hkey : q'.1 = event := by
        have := List.find?_some hq'
        simpa using this
      rw [hq']
      simp [hkey]
    · rw [if_neg h]
      have hnone : ls.find? (fun p => decide (p.1 = event)) = none := by
        rw [List.find?_eq_none]
        intro x hx hpx
        exact h (List.any_eq_true.mpr ⟨x, hx, hpx⟩)
      rw [List.find?_append, hnone]
      simp

/-- C5 (amended): click invokes the scripted fallback exactly when a
protocol call of the structural path raises or the element query finds no
node; a falsy document or a missing box model makes click return false
without invoking the fallback, a fully successful structural path returns
true without the fallback (whatever the pointer dispatch does), and when
the element query finds no node the call returns the outcome of the
scripted fallback. -/
theorem click_fallback_characterization :
    (∀ env : CDP.ClickEnv,
        (CDP.clickRun env).2 = CDP.fallbackTriggers env) ∧
    (∀ env : CDP.ClickEnv, CDP.structuralOk env →
        CDP.clickRun env = (Except.ok true, false)) ∧
    (∀ env : CDP.ClickEnv, env.getDoc = Except.ok none →
        env.enable = Except.ok () →
        CDP.clickRun env = (Except.ok false, false)) ∧
    (∀ (env : CDP.ClickEnv) (r n : Nat), env.enable = Except.ok () →
        env.getDoc = Except.ok (some r) → env.query = Except.ok (some n) →
        env.boxModel = Except.ok none →
        CDP.clickRun env = (Except.ok false, false)) ∧
    (∀ (env : CDP.ClickEnv) (r : Nat), env.enable = Except.ok () →
        env.getDoc = Except.ok (some r) → env.query = Except.ok none →
        CDP.clickRun env = (env.jsClick, true)) := by
  refine ⟨?_, ?_, ?_, ?_, ?_⟩
  · rintro ⟨en, gd, q, bm, pr, re, js⟩
    rcases en with e | u
    · rfl
    · rcases gd with e | d
      · rfl
      · rcases d with _ | r
        · rfl
        · rcases q with e | nd
          · rfl
          · rcases nd with _ | n
            · rfl
            · rcases bm with e | bo
              · rfl
              · rcases bo with _ | qq
                · rfl
                · rfl
  · rintro env ⟨h1, ⟨r, h2⟩, ⟨n, h3⟩, ⟨q, h4⟩⟩
    simp [CDP.clickRun, h1, h2, h3, h4]
  · intro env h2 h1
    simp [CDP.clickRun, h1, h2]
  · intro env r n h1 h2 h3 h4
    simp [CDP.clickRun, h1, h2, h3, h4]
  · intro env r h1 h2 h3
    simp [CDP.clickRun, h1, h2, h3]

/-- C5 witness: concrete oracles exercising the characterization. -/
theorem click_fallback_characterization_witness :
    CDP.clickRun envAllOk = (Except.ok true, false) := by
  exact click_fallback_characterization.2.1 envAllOk
    ⟨rfl, ⟨1, rfl⟩, ⟨7, rfl⟩, ⟨(0, 0, 10, 0, 10, 10, 0, 10), rfl⟩⟩

/-- C5 counterexample: the element query succeeds but the box-model call
returns no usable model — a structural geometry failure — yet the scripted
fallback is not invoked (which would have found the element) and click
reports false, so the fallback is not invoked on every structural
failure. -/
theorem click_counterexample :
    CDP.clickRun envBoxNone = (Except.ok false, false) ∧
    ¬ CDP.structuralOk envBoxNone ∧
    envBoxNone.jsClick = Except.ok true := by
  refine ⟨rfl, ?_, rfl⟩
  rintro ⟨-, -, -, q, hq⟩
  simp [envBoxNone] at hq

/-- C2 (amended): capture_state overwrites the state file in place, so a
reader during the write can observe any prefix of the serialized snapshot
(the empty truncated file included) — a torn read — while the complete
record is the observable content once the write finishes; a
write-then-rename discipline would instead expose only the two complete
records. -/
theorem snapshot_write_in_place (it : Nat) (ts task url title elems : String) :
    ([] : List Char)
        ∈ (Exec.captureState it ts task url title elems).observables ∧
    (Exec.captureState it ts task url title elems).payload.toList
        ∈ (Exec.captureState it ts task url title elems).observables ∧
    (∀ o ∈ (Exec.captureState it ts task url title elems).observables,
        o <+: (Exec.captureState it ts task url title elems).payload.toList) ∧
    ∀ old p : String,
      Exec.tornFree old.toList p.toList (Exec.renameObservables old p) := by
  simp only [Exec.captureState, Exec.overwriteObservables, List.mem_inits]
  refine ⟨List.nil_prefix, List.prefix_refl _, ?_, ?_⟩
  · intro o ho
    exact ho
  · intro old p o ho
    simp only [Exec.renameObservables, List.mem_cons, List.mem_singleton,
      List.not_mem_nil, or_false] at ho
    exact ho

/-- C2 witness: the empty observable of a concrete capture is a prefix of
its complete record. -/
theorem snapshot_write_in_place_witness :
    ([] : List Char) <+:
      (Exec.captureState 0 "2026-10-12T10:00:00" "demo" "https://example.test"
          "Example" "\x7b\x7d").payload.toList := by
  have h := snapshot_write_in_place 0 "2026-10-12T10:00:00" "demo"
    "https://example.test" "Example" "\x7b\x7d"
  exact h.2.2.1 [] h.1

/-- C2 counterexample: with the previous complete snapshot on disk and the
next capture in progress, the empty truncated file is among the observable
contents and is neither the old nor the new complete record, so the
in-place write of capture_state is not torn-free. -/
theorem snapshot_write_counterexample :
    ¬ Exec.tornFree exOldSnapshot.toList exCapture.payload.toList
        exCapture.observables := by
  intro h
  have h0 : ([] : List Char) ∈ exCapture.observables :=
    (List.mem_inits _ _).mpr List.nil_prefix
  rcases h [] h0 with h1 | h1
  · rw [exOldSnapshot, Exec.stateJson] at h1
    simp only [String.toList, String.data_append] at h1
    have h2 := (List.append_eq_nil.mp h1.symm).1
    exact absurd h2 (by decide)
  · rw [show exCapture.payload
        = Exec.stateJson 2 "2026-10-12T10:00:05" "demo" "https://example.test"
            "Example" "\x7b\x7d" from rfl, Exec.stateJson] at h1
    simp only [String.toList, String.data_append] at h1
    have h2 := (List.append_eq_nil.mp h1.symm).1
    exact absurd h2 (by decide)

/-- C4 (amended): with at least one iteration allowed and a decision
source that never supplies a batch, run_task performs exactly one decision
wait and terminates with the timeout reason, having captured exactly two
snapshots: the capture of the first iteration plus the unconditional final
capture after the loop. -/
theorem never_responding_run (m it : Nat) (h : 1 ≤ m) :
    Exec.runTask neverDecide m it
      = ⟨2, 1, 1, it + 2, Exec.RunReason.timeout⟩ := by
  cases m with
  | zero => omega
  | succ m => rfl

/-- C4 witness: the default iteration ceiling of run_task. -/
theorem never_responding_run_witness :
    Exec.runTask neverDecide 10 0
      = ⟨2, 1, 1, 2, Exec.RunReason.timeout⟩ :=
  never_responding_run 10 0 (by omega)

/-- C4 counterexample: with a decision source that never responds, run_task
stops after exactly one decision wait with the timeout reason but captures
two snapshots, not one. -/
theorem never_responding_counterexample :
    (Exec.runTask neverDecide 10 0).waits = 1 ∧
    (Exec.runTask neverDecide 10 0).reason = Exec.RunReason.timeout ∧
    (Exec.runTask neverDecide 10 0).snapshots = 2 ∧
    ¬ (Exec.runTask neverDecide 10 0).snapshots = 1 := by
  refine ⟨rfl, rfl, rfl, ?_⟩
  intro hx
  rw [show (Exec.runTask neverDecide 10 0).snapshots = 2 from rfl] at hx
  omega

/-- C9: the coordinator always terminates: run_task enters at most
maxIterations loop iterations, performing at most that many decision waits
and at most one snapshot capture more than that; and every decision wait
exits after a number of clock polls bounded by its timeout, for any
behaviour of the decision file. -/
theorem coordinator_bounded :
    (∀ (d : Nat → Option Exec.Batch) (m it : Nat),
        (Exec.runTask d m it).itersEntered ≤ m ∧
        (Exec.runTask d m it).waits ≤ m ∧
        (Exec.runTask d m it).snapshots ≤ m + 1) ∧
    (∀ (c : Exec.Clock) (obs : Nat → Exec.PollObs) (entry : Option Nat)
        (timeout : Nat),
        (Exec.waitForActions c obs entry timeout).2 ≤ max 1 timeout) := by
  constructor
  · intro d m it
    exact runTaskLoop_bounds d m it 0
  · intro c obs entry timeout
    exact waitPoll_exit_bound c obs (entry.getD 0) timeout 1
      (le_max_left 1 timeout)

theorem statusOk_ite (c : Prop) [Decidable c] (x y : Exec.ActionResult)
    (hx : statusOk x) (hy : statusOk y) : statusOk (if c then x else y) := by
  by_cases h : c
  · rwa [if_pos h]
  · rwa [if_neg h]

theorem statusOk_withEff (eff : Exec.Effect) (f : String → String) :
    statusOk (Exec.withEff eff f) := by
  cases eff with
  | ok v => exact Or.inl rfl
  | error e => exact Or.inr (Or.inl rfl)

theorem ite_err_step (c : Prop) [inst : Decidable c] (b1 b2 : Bool)
    (x y r : Exec.ActionResult) (hx : b1 = true → x = r)
    (hy : b2 = true → y = r) :
    (if c then b1 else b2) = true → (if c then x else y) = r := by
  by_cases h : c
  · rw [if_pos h, if_pos h]; exact hx
  · rw [if_neg h, if_neg h]; exact hy

theorem ite_unknown_step (ty lit : String) (x y r : Exec.ActionResult)
    (hne : ¬ ty = lit) (hy : y = r) : (if ty = lit then x else y) = r := by
  rw [if_neg hne]; exact hy

/-- C10: execute_action always returns a status-message envelope with
status success, error or done and never lets an exception escape: whenever
the selected branch awaits page work and that work raises, the result is
the error envelope carrying the exception text, and an unrecognized action
kind yields the unknown-action error envelope rather than a crash. -/
theorem executeAction_envelope (it : Nat) (a : Exec.Action)
    (eff : Exec.Effect) :
    ((Exec.executeAction it a eff).status = "success" ∨
     (Exec.executeAction it a eff).status = "error" ∨
     (Exec.executeAction it a eff).status = "done") ∧
    (∀ e : String, eff = Except.error e → Exec.consultsEffect a = true →
        Exec.executeAction it a eff = ⟨"error", e⟩) ∧
    (a.type.getD "" ∉ Exec.knownActionTypes →
        Exec.executeAction it a eff
          = ⟨"error", "Unknown action: " ++ a.type.getD ""⟩) := by
  refine ⟨?_, ?_, ?_⟩
  · show statusOk (Exec.executeAction it a eff)
    unfold Exec.executeAction
    dsimp only
    repeat'
      first
        | exact statusOk_withEff _ _
        | exact Or.inl rfl
        | exact Or.inr (Or.inl rfl)
        | exact Or.inr (Or.inr rfl)
        | apply statusOk_ite
  · intro e he
    subst he
    unfold Exec.executeAction Exec.consultsEffect
    dsimp only
    repeat'
      first
        | exact fun h => Bool.noConfusion h
        | exact fun _ => rfl
        | apply ite_err_step
  · intro hna
    unfold Exec.executeAction
    dsimp only
    repeat'
      first
        | exact rfl
        | refine ite_unknown_step _ _ _ _ _ (fun h => hna (by rw [h]; decide)) ?_

/-- C10 witness: a raising navigate and an unrecognized action kind. -/
theorem executeAction_envelope_witness :
    Exec.executeAction 0 { type := some "navigate" } (Except.error "net down")
        = ⟨"error", "net down"⟩ ∧
    Exec.executeAction 0 { type := some "frobnicate" } (Except.ok "")
        = ⟨"error", "Unknown action: frobnicate"⟩ := by
  constructor
  · exact (executeAction_envelope 0 { type := some "navigate" }
      (Except.error "net down")).2.1 "net down" rfl (by decide)
  · exact (executeAction_envelope 0 { type := some "frobnicate" }
      (Except.ok "")).2.2 (by decide)
